import Mathlib

/- Verification of the session controller of the voice-recorder application
   (src/App.js). The App component's React state hooks are embedded as the
   fields of the State structure below, and every event handler of the
   component becomes a function on State. Handles produced by the audio
   device are modelled as natural numbers; playback sound objects carry the
   identifier of the clip they were created from so that liveness and
   association of playback handles can be stated. A fallible handler (one
   whose JavaScript body would throw before reaching its state updates, or
   whose effect depends on an awaited device call) returns Option State. -/

set_option autoImplicit false

namespace RecorderApp

/- JavaScript String.prototype.trim as used in handleSaveRecording:
   strips whitespace from both ends of the string. -/
def jsTrim (s : String) : String :=
  String.mk (((s.data.dropWhile Char.isWhitespace).reverse.dropWhile Char.isWhitespace).reverse)

/- The recording-state classification used by the specification:
   Idle, Recording, Paused. -/
inductive RecState where
  | Idle
  | Recording
  | Paused
deriving DecidableEq, Repr

/- A live playback sound object, as produced by
   recording.recording.createNewLoadedSoundAsync: an identity plus the index
   of the clip it was created from. -/
structure Snd where
  id : Nat
  clip : Nat
deriving DecidableEq, Repr

/- A saved recording, as appended by handleSaveRecording:
   name, the finalized capture handle, and a timestamp string. -/
structure Clip where
  name : String
  recording : Option Nat
  timestamp : String
deriving DecidableEq, Repr

/- The useState hooks of the App component (src/App.js lines 11-20), plus
   bookkeeping for the device-side sound objects: liveSounds is the set of
   sound objects that have been created and not yet unloaded, and
   nextSoundId supplies fresh identities. -/
structure State where
  recordings : List Clip
  recording : Option Nat
  recordingName : String
  playing : Int
  sound : Option Snd
  dialogVisible : Bool
  isRecording : Bool
  timer : Nat
  isPaused : Bool
  liveSounds : List Snd
  nextSoundId : Nat
deriving DecidableEq, Repr

/- The initial values of the useState hooks. -/
def initState : State :=
  { recordings := [], recording := none, recordingName := "", playing := -1,
    sound := none, dialogVisible := false, isRecording := false, timer := 0,
    isPaused := false, liveSounds := [], nextSoundId := 0 }

/- The spec classification of the recording state, derived from the
   component's isRecording and isPaused flags. -/
def recordingState (s : State) : RecState :=
  if s.isRecording then (if s.isPaused then RecState.Paused else RecState.Recording)
  else RecState.Idle

/- One firing of the timer effect (lines 22-34): the interval exists exactly
   while isRecording and not isPaused, and each firing adds 1 to timer. -/
def tick (s : State) : State :=
  { s with timer := if s.isRecording && !s.isPaused then s.timer + 1 else s.timer }

/- startRecording (lines 36-52), success path: the device grants permission
   and createAsync yields a capture handle h; the handler stores it and sets
   isRecording. It does not touch timer, isPaused or dialogVisible. -/
def startRecordingOk (h : Nat) (s : State) : State :=
  { s with recording := some h, isRecording := true }

/- startRecording, failure path: any await throws, the catch block only
   logs, and no state update runs. -/
def startRecordingErr (s : State) : State := s

/- stopRecording (lines 54-62): stopAndUnloadAsync on the current recording
   (throws when it is null, in which case no update runs), then
   isRecording := false, the save dialog opens, and timer resets. The
   recording field itself is not cleared. -/
def stopRecording (s : State) : Option State :=
  match s.recording with
  | none => none
  | some _ => some { s with isRecording := false, dialogVisible := true, timer := 0 }

/- togglePause (lines 81-88): startAsync or pauseAsync on the current
   recording (throws when it is null), then isPaused is flipped. -/
def togglePause (s : State) : Option State :=
  match s.recording with
  | none => none
  | some _ => some { s with isPaused := !s.isPaused }

/- handleSaveRecording (lines 64-79): when the typed name is nonempty after
   trimming, append one entry carrying the typed name, the pending capture
   handle and the timestamp now, then clear the pending handle, close the
   dialog and clear the name field; otherwise do nothing. -/
def handleSaveRecording (now : String) (s : State) : State :=
  if jsTrim s.recordingName ≠ "" then
    { s with
      recordings := s.recordings ++
        [{ name := s.recordingName, recording := s.recording, timestamp := now }],
      recording := none,
      dialogVisible := false,
      recordingName := "" }
  else s

/- The Cancel button of the save dialog (lines 115-117): it only hides the
   dialog. -/
def cancelDialog (s : State) : State :=
  { s with dialogVisible := false }

/- The TextInput onChangeText handler (line 109). -/
def setName (t : String) (s : State) : State :=
  { s with recordingName := t }

/- The play onPress handler for the list entry at index (lines 125-145),
   together with the cleanup effect on sound (lines 90-96) that the
   setSound call triggers: a fresh sound object is created from the clip at
   index, the previously tracked sound is unloaded by the effect cleanup,
   the new sound becomes tracked and playing, and playing is set to index.
   The handler dereferences recordings[index], so it requires a valid
   index (the list only renders valid ones). -/
def playClip (index : Nat) (s : State) : Option State :=
  if index < s.recordings.length then
    some { s with
      sound := some { id := s.nextSoundId, clip := index },
      playing := (index : Int),
      liveSounds := { id := s.nextSoundId, clip := index : Snd } ::
        s.liveSounds.filter (fun x => decide (some x ≠ s.sound)),
      nextSoundId := s.nextSoundId + 1 }
  else none

/- The playback status callback registered in the play handler
   (lines 139-144), delivered for the sound object h it closed over: on
   didJustFinish it sets playing to -1 (with no check that h is still the
   tracked sound) and unloads h; otherwise it does nothing. -/
def handleStatusUpdate (h : Snd) (didJustFinish : Bool) (s : State) : State :=
  if didJustFinish then
    { s with playing := -1, liveSounds := s.liveSounds.filter (fun x => decide (x ≠ h)) }
  else s

/- The trash onPress handler (lines 151-158): filter out the entry at
   index. Nothing else is touched. -/
def deleteClip (index : Nat) (s : State) : State :=
  { s with recordings := s.recordings.eraseIdx index }

/- One user-visible event of the running component. Footer events follow the
   dispatch on line 165 (start only when recording is null, stop when a
   recording is held and not paused, resume when paused) and are available
   only while the modal dialog is closed; dialog events require the dialog
   to be open; the status callback can be delivered at any time. -/
inductive Step : State → State → Prop where
  | timerTick (s : State) : Step s (tick s)
  | pressStartOk (s : State) (h : Nat) :
      s.dialogVisible = false → s.recording = none → Step s (startRecordingOk h s)
  | pressStartErr (s : State) :
      s.dialogVisible = false → s.recording = none → Step s (startRecordingErr s)
  | pressStop (s s' : State) :
      s.dialogVisible = false → s.recording ≠ none → s.isPaused = false →
      stopRecording s = some s' → Step s s'
  | pressResume (s s' : State) :
      s.dialogVisible = false → s.recording ≠ none → s.isPaused = true →
      togglePause s = some s' → Step s s'
  | pressSave (s : State) (now : String) :
      s.dialogVisible = true → Step s (handleSaveRecording now s)
  | pressCancel (s : State) :
      s.dialogVisible = true → Step s (cancelDialog s)
  | typeNameStep (s : State) (t : String) :
      s.dialogVisible = true → Step s (setName t s)
  | pressPlay (s s' : State) (i : Nat) :
      s.dialogVisible = false → playClip i s = some s' → Step s s'
  | pressTrash (s : State) (i : Nat) :
      s.dialogVisible = false → i < s.recordings.length → Step s (deleteClip i s)
  | statusUpdate (s : State) (h : Snd) (b : Bool) : Step s (handleStatusUpdate h b s)

/- States reachable from the initial hook values through component events. -/
inductive Reachable : State → Prop where
  | init : Reachable initState
  | step (s s' : State) : Reachable s → Step s s' → Reachable s'

/- Invariant used for claim C6: while isRecording is set, a capture handle
   is held and the save dialog is closed. -/
def Inv (s : State) : Prop :=
  s.isRecording = true → s.recording ≠ none ∧ s.dialogVisible = false

/- Sample data used to instantiate theorems with hypotheses. -/

def nowStr : String := "2024-01-01"

def clipA : Clip := { name := "first", recording := some 10, timestamp := nowStr }

def clipB : Clip := { name := "second", recording := some 11, timestamp := nowStr }

def clipC : Clip := { name := "third", recording := some 12, timestamp := nowStr }

def dialogStateNamed : State :=
  { initState with recording := some 3, dialogVisible := true, recordingName := "Take 1" }

def dialogStateBlank : State :=
  { initState with recording := some 3, dialogVisible := true, recordingName := "   " }

def playTwoState : State :=
  { initState with
    recordings := [clipA, clipB], playing := 0,
    sound := some ⟨0, 0⟩, liveSounds := [⟨0, 0⟩],
    nextSoundId := 1 }

def playingZeroState : State :=
  { initState with
    recordings := [clipA], playing := 0,
    sound := some ⟨0, 0⟩, liveSounds := [⟨0, 0⟩],
    nextSoundId := 1 }

def playingDeleteState : State :=
  { initState with
    recordings := [clipA], playing := 0,
    sound := some ⟨0, 0⟩, liveSounds := [⟨0, 0⟩],
    nextSoundId := 1 }

def twoClipsState : State :=
  { initState with
    recordings := [clipA, clipB], playing := 1,
    sound := some ⟨0, 1⟩, liveSounds := [⟨0, 1⟩],
    nextSoundId := 1 }

def threeClipsState : State :=
  { initState with
    recordings := [clipA, clipB, clipC], playing := 1,
    sound := some ⟨0, 1⟩, liveSounds := [⟨0, 1⟩],
    nextSoundId := 1 }

def staleCallbackState : State :=
  { initState with
    recordings := [clipA, clipB], playing := 1,
    sound := some ⟨2, 1⟩, liveSounds := [⟨2, 1⟩],
    nextSoundId := 3 }

def pendingCancelState : State :=
  { initState with recording := some 7, dialogVisible := true }

def postStopState : State :=
  { initState with recording := some 0, dialogVisible := true }

/- Helper lemmas. -/

lemma playClip_eq (index : Nat) (s : State) (hj : index < s.recordings.length) :
    playClip index s = some { s with
      sound := some { id := s.nextSoundId, clip := index },
      playing := (index : Int),
      liveSounds := { id := s.nextSoundId, clip := index : Snd } ::
        s.liveSounds.filter (fun x => decide (some x ≠ s.sound)),
      nextSoundId := s.nextSoundId + 1 } := by
  simp [playClip, hj]

lemma getElem?_eraseIdx_ge {α : Type} :
    ∀ (l : List α) (i k : Nat), i ≤ k → (l.eraseIdx i)[k]? = l[k + 1]?
  | [], _, _, _ => by simp
  | _ :: _, 0, _, _ => by simp [List.eraseIdx]
  | a :: l, i + 1, k + 1, h => by
      simp only [List.eraseIdx, List.getElem?_cons_succ]
      exact getElem?_eraseIdx_ge l i k (Nat.le_of_succ_le_succ h)

lemma getElem?_eraseIdx_lt {α : Type} :
    ∀ (l : List α) (i k : Nat), k < i → (l.eraseIdx i)[k]? = l[k]?
  | [], _, _, _ => by simp
  | _ :: _, 0, k, h => by omega
  | a :: l, i + 1, 0, h => by simp [List.eraseIdx]
  | a :: l, i + 1, k + 1, h => by
      simp only [List.eraseIdx, List.getElem?_cons_succ]
      exact getElem?_eraseIdx_lt l i k (Nat.lt_of_succ_lt_succ h)

lemma inv_step {s s' : State} (hinv : Inv s) (hs : Step s s') : Inv s' := by
  cases hs with
  | timerTick => exact hinv
  | pressStartOk h hd hr =>
      intro _
      refine ⟨?_, hd⟩
      simp [startRecordingOk]
  | pressStartErr hd hr => exact hinv
  | pressStop t hdv hrec hpau hstop =>
      rcases e : s.recording with _ | r
      · simp [stopRecording, e] at hstop
      · simp [stopRecording, e] at hstop
        subst hstop
        intro habs
        exact absurd habs (by simp)
  | pressResume t hdv hrec hpau htog =>
      rcases e : s.recording with _ | r
      · simp [togglePause, e] at htog
      · simp [togglePause, e] at htog
        subst htog
        intro habs
        exact ⟨by simp, (hinv habs).2⟩
  | pressSave now hd =>
      unfold Inv handleSaveRecording
      split
      · intro habs
        have hdf := (hinv habs).2
        rw [hd] at hdf
        exact absurd hdf (by decide)
      · exact hinv
  | pressCancel hd =>
      intro habs
      exact ⟨(hinv habs).1, rfl⟩
  | typeNameStep t hd => exact hinv
  | pressPlay t i hdv hplay =>
      by_cases hi : i < s.recordings.length
      · simp [playClip, hi] at hplay
        subst hplay
        intro habs
        exact hinv habs
      · simp [playClip, hi] at hplay
  | pressTrash i hd hlen => exact hinv
  | statusUpdate h b =>
      unfold Inv handleStatusUpdate
      split
      · intro habs
        exact hinv habs
      · exact hinv

lemma inv_reachable {s : State} (h : Reachable s) : Inv s := by
  induction h with
  | init => intro habs; exact absurd habs (by decide)
  | step s s' hr hs ih => exact inv_step ih hs

/- Claims. -/

/-- Claim C1: with one clip currently playing (one live playback handle,
the tracked one), pressing play on a different clip j releases the prior
handle and leaves exactly one playback handle alive, a fresh one associated
with clip j, with the playing index set to j. -/
theorem c1_playClip_exclusive (s : State) (h0 : Snd) (j : Nat)
    (hsound : s.sound = some h0)
    (hlive : s.liveSounds = [h0])
    (hne : (j : Int) ≠ s.playing)
    (hj : j < s.recordings.length) :
    (playClip j s).map State.sound = some (some { id := s.nextSoundId, clip := j }) ∧
    (playClip j s).map State.playing = some (j : Int) ∧
    (playClip j s).map State.liveSounds = some [{ id := s.nextSoundId, clip := j }] := by
  rw [playClip_eq j s hj]
  refine ⟨rfl, rfl, ?_⟩
  simp [hlive, hsound]

/-- Claim C1 witness: from a concrete state playing clip 0 with a single
live handle, pressing play on clip 1 yields exactly one live handle, fresh
and associated with clip 1. -/
theorem c1_witness :
    (playClip 1 playTwoState).map State.sound = some (some { id := 1, clip := 1 }) ∧
    (playClip 1 playTwoState).map State.playing = some 1 ∧
    (playClip 1 playTwoState).map State.liveSounds = some [{ id := 1, clip := 1 }] :=
  c1_playClip_exclusive playTwoState { id := 0, clip := 0 } 1 rfl rfl (by decide) (by decide)

/-- Claim C2: saving with a name that trims to empty leaves the whole state
(in particular the clips list) unchanged, a silent no-op; saving with a name
that trims nonempty appends exactly one clip carrying the typed name, the
pending capture handle and the supplied timestamp, and clears the pending
handle, the dialog and the name field. -/
theorem c2_handleSaveRecording_spec (s : State) (now : String) :
    (jsTrim s.recordingName = "" → handleSaveRecording now s = s) ∧
    (jsTrim s.recordingName ≠ "" →
      handleSaveRecording now s =
        { s with
          recordings := s.recordings ++
            [{ name := s.recordingName, recording := s.recording, timestamp := now }],
          recording := none,
          dialogVisible := false,
          recordingName := "" }) := by
  constructor
  · intro he
    simp [handleSaveRecording, he]
  · intro hne
    simp [handleSaveRecording, hne]

/-- Claim C2 witness: saving a whitespace-only name from a concrete pending
state is a no-op, and saving the name Take 1 appends exactly that clip and
clears the pending handle. -/
theorem c2_witness :
    handleSaveRecording nowStr dialogStateBlank = dialogStateBlank ∧
    handleSaveRecording nowStr dialogStateNamed =
      { dialogStateNamed with
        recordings := [{ name := dialogStateNamed.recordingName, recording := some 3,
                         timestamp := nowStr }],
        recording := none,
        dialogVisible := false,
        recordingName := "" } :=
  ⟨(c2_handleSaveRecording_spec dialogStateBlank nowStr).1 (by decide),
   (c2_handleSaveRecording_spec dialogStateNamed nowStr).2 (by decide)⟩

/-- Claim C3 counterexample: deleting the clip that is currently playing
does not stop or release playback: from a concrete state playing clip 0,
deleting clip 0 empties the list but leaves the playing index at 0 (not
absent), the tracked sound in place, and the playback handle still live. -/
theorem c3_counterexample :
    (deleteClip 0 playingDeleteState).recordings = [] ∧
    (deleteClip 0 playingDeleteState).playing = 0 ∧
    (deleteClip 0 playingDeleteState).playing ≠ -1 ∧
    (deleteClip 0 playingDeleteState).sound = some { id := 0, clip := 0 } ∧
    (deleteClip 0 playingDeleteState).liveSounds = [{ id := 0, clip := 0 }] := by
  decide

/-- Claim C3 amended: for every valid index i, deleteClip i removes the clip
at position i and re-indexes the subsequent clips, but it never touches
playback: the playing index, the tracked sound and the live playback
handles are all unchanged, even when clip i was the one playing. -/
theorem c3_deleteClip_amended (s : State) (i : Nat) (hi : i < s.recordings.length) :
    (deleteClip i s).recordings.length + 1 = s.recordings.length ∧
    (∀ k : Nat, k < i → (deleteClip i s).recordings[k]? = s.recordings[k]?) ∧
    (∀ k : Nat, i ≤ k → (deleteClip i s).recordings[k]? = s.recordings[k + 1]?) ∧
    (deleteClip i s).playing = s.playing ∧
    (deleteClip i s).sound = s.sound ∧
    (deleteClip i s).liveSounds = s.liveSounds := by
  refine ⟨?_, ?_, ?_, rfl, rfl, rfl⟩
  · exact List.length_eraseIdx_add_one hi
  · intro k hk
    exact getElem?_eraseIdx_lt s.recordings i k hk
  · intro k hk
    exact getElem?_eraseIdx_ge s.recordings i k hk

/-- Claim C3 witness: deleting clip 0 from a concrete two-clip state leaves
one clip, shifts the second clip into position 0, and leaves the playing
index unchanged. -/
theorem c3_witness :
    (deleteClip 0 twoClipsState).recordings.length + 1 = 2 ∧
    (deleteClip 0 twoClipsState).recordings[0]? = some clipB ∧
    (deleteClip 0 twoClipsState).playing = 1 := by
  have h := c3_deleteClip_amended twoClipsState 0 (by decide)
  exact ⟨h.1, h.2.2.1 0 (Nat.le_refl 0), h.2.2.2.1⟩

/-- Claim C4 counterexample: pressing play on the clip that is already
playing does not act as a stop toggle: from a concrete state playing clip 0,
pressing play on clip 0 leaves the playing index at 0 (not absent) and
starts a fresh playback handle, so playback is still present. -/
theorem c4_counterexample :
    (playClip 0 playingZeroState).map State.playing = some 0 ∧
    (playClip 0 playingZeroState).map State.playing ≠ some (-1) ∧
    (playClip 0 playingZeroState).map State.liveSounds = some [{ id := 1, clip := 0 }] ∧
    (playClip 0 playingZeroState).map State.sound = some (some { id := 1, clip := 0 }) := by
  decide

/-- Claim C4 amended: pressing play on the clip that is already playing does
not stop playback: it releases the previously tracked handle, creates and
plays a fresh handle for the same clip, and leaves the playing index equal
to index, so playback stays present rather than becoming absent. -/
theorem c4_playClip_same_index (s : State) (h0 : Snd) (i : Nat)
    (hsound : s.sound = some h0)
    (hlive : s.liveSounds = [h0])
    (hplay : s.playing = (i : Int))
    (hi : i < s.recordings.length) :
    (playClip i s).map State.playing = some (i : Int) ∧
    (playClip i s).map State.sound = some (some { id := s.nextSoundId, clip := i }) ∧
    (playClip i s).map State.liveSounds = some [{ id := s.nextSoundId, clip := i }] := by
  rw [playClip_eq i s hi]
  refine ⟨rfl, rfl, ?_⟩
  simp [hlive, hsound]

/-- Claim C4 witness: from a concrete state playing clip 0, pressing play on
clip 0 keeps the playing index at 0 and replaces the live handle with a
fresh one for clip 0. -/
theorem c4_witness :
    (playClip 0 playingZeroState).map State.playing = some 0 ∧
    (playClip 0 playingZeroState).map State.sound = some (some { id := 1, clip := 0 }) ∧
    (playClip 0 playingZeroState).map State.liveSounds = some [{ id := 1, clip := 0 }] :=
  c4_playClip_same_index playingZeroState { id := 0, clip := 0 } 0 rfl rfl rfl (by decide)

/-- Claim C5 counterexample: the completion callback has no staleness guard:
in a concrete state where clip 1 is playing on handle 2, delivering a
didJustFinish notification for the stale handle 1 (which is not the tracked
handle) clears the playing index to -1, changing the newer playback state
instead of leaving it unchanged. -/
theorem c5_counterexample :
    staleCallbackState.sound ≠ some { id := 1, clip := 0 } ∧
    staleCallbackState.playing = 1 ∧
    (handleStatusUpdate { id := 1, clip := 0 } true staleCallbackState).playing = -1 ∧
    (handleStatusUpdate { id := 1, clip := 0 } true staleCallbackState).playing ≠
      staleCallbackState.playing := by
  decide

/-- Claim C5 amended: a completion notification for a handle that is no
longer the currently tracked handle still clears the playing index to -1
and unloads that handle; the callback applies no guard comparing its handle
with the tracked one, so a stale notification does change the newer
playback state. -/
theorem c5_stale_callback (s : State) (h : Snd) (hstale : s.sound ≠ some h) :
    (handleStatusUpdate h true s).playing = -1 ∧
    (handleStatusUpdate h true s).sound = s.sound ∧
    (handleStatusUpdate h true s).liveSounds =
      s.liveSounds.filter (fun x => decide (x ≠ h)) :=
  ⟨rfl, rfl, rfl⟩

/-- Claim C5 witness: delivering a stale didJustFinish notification in a
concrete state playing clip 1 on handle 2 clears the playing index and
leaves the tracked sound field and live handle list as computed. -/
theorem c5_witness :
    (handleStatusUpdate { id := 1, clip := 0 } true staleCallbackState).playing = -1 ∧
    (handleStatusUpdate { id := 1, clip := 0 } true staleCallbackState).sound =
      some { id := 2, clip := 1 } ∧
    (handleStatusUpdate { id := 1, clip := 0 } true staleCallbackState).liveSounds =
      [{ id := 2, clip := 1 }] :=
  c5_stale_callback staleCallbackState { id := 1, clip := 0 } (by decide)

/-- Claim C6 counterexample: the state reached by starting a recording and
then stopping it is Idle but still holds the capture handle: stopRecording
never clears the recording field, so the iff between a held handle and a
non-Idle recording state fails on a reachable state. -/
theorem c6_counterexample :
    Reachable postStopState ∧
    recordingState postStopState = RecState.Idle ∧
    postStopState.recording ≠ none := by
  refine ⟨?_, by decide, by decide⟩
  have h1 : Step initState (startRecordingOk 0 initState) :=
    Step.pressStartOk initState 0 rfl rfl
  have h2 : Step (startRecordingOk 0 initState) postStopState :=
    Step.pressStop (startRecordingOk 0 initState) postStopState rfl (by decide) rfl rfl
  exact Reachable.step _ _ (Reachable.step _ _ Reachable.init h1) h2

/-- Claim C6 amended: only one direction of the claimed iff holds: in every
reachable state with recordingState not Idle, a capture handle is held; the
converse fails because after stopRecording the finalized handle stays in the
recording field while the state is Idle (pending save), and Cancel never
clears it either. -/
theorem c6_recording_handle (s : State) (hr : Reachable s)
    (hn : recordingState s ≠ RecState.Idle) : s.recording ≠ none := by
  have hrec : s.isRecording = true := by
    by_contra hfalse
    have hb : s.isRecording = false := by
      cases hv : s.isRecording
      · rfl
      · exact absurd hv hfalse
    apply hn
    unfold recordingState
    rw [hb]
    simp
  exact (inv_reachable hr hrec).1

/-- Claim C6 witness: the reachable state right after a successful
startRecording is not Idle and holds a capture handle. -/
theorem c6_witness :
    recordingState (startRecordingOk 0 initState) ≠ RecState.Idle ∧
    (startRecordingOk 0 initState).recording ≠ none :=
  ⟨by decide,
   c6_recording_handle (startRecordingOk 0 initState)
     (Reachable.step initState (startRecordingOk 0 initState) Reachable.init
       (Step.pressStartOk initState 0 rfl rfl))
     (by decide)⟩

/-- Claim C7: from any Idle state, the sequence startRecording, pause
(togglePause), resume (togglePause), stopRecording succeeds and ends with
recordingState Idle, timer 0, and the save dialog open (the pending-save
state). -/
theorem c7_full_cycle (s : State) (h : Nat)
    (hIdle : recordingState s = RecState.Idle) :
    (((togglePause (startRecordingOk h s)).bind togglePause).bind stopRecording).map
        recordingState = some RecState.Idle ∧
    (((togglePause (startRecordingOk h s)).bind togglePause).bind stopRecording).map
        State.timer = some 0 ∧
    (((togglePause (startRecordingOk h s)).bind togglePause).bind stopRecording).map
        State.dialogVisible = some true :=
  ⟨rfl, rfl, rfl⟩

/-- Claim C7 witness: running the full start, pause, resume, stop sequence
from the initial state ends Idle with timer 0 and the save dialog open. -/
theorem c7_witness :
    (((togglePause (startRecordingOk 0 initState)).bind togglePause).bind stopRecording).map
        recordingState = some RecState.Idle ∧
    (((togglePause (startRecordingOk 0 initState)).bind togglePause).bind stopRecording).map
        State.timer = some 0 ∧
    (((togglePause (startRecordingOk 0 initState)).bind togglePause).bind stopRecording).map
        State.dialogVisible = some true :=
  c7_full_cycle initState 0 rfl

/-- Claim C8: a timer tick in the Recording state increments timer by
exactly 1, and no event of the component increases timer from a state whose
recordingState is Paused or Idle. -/
theorem c8_timer_only_recording (s s' : State) (hs : Step s s') :
    (recordingState s = RecState.Recording → (tick s).timer = s.timer + 1) ∧
    (recordingState s ≠ RecState.Recording → s'.timer ≤ s.timer) := by
  constructor
  · intro hrec
    cases hR : s.isRecording <;> cases hP : s.isPaused <;>
      simp [recordingState, hR, hP] at hrec ⊢ <;> simp [tick, hR, hP]
  · intro hnotrec
    cases hs with
    | timerTick =>
        cases hR : s.isRecording <;> cases hP : s.isPaused <;> simp [tick, hR, hP]
        exact absurd (by simp [recordingState, hR, hP]) hnotrec
    | pressStartOk h hd hr => exact Nat.le_refl _
    | pressStartErr hd hr => exact Nat.le_refl _
    | pressStop t hdv hrec hpau hstop =>
        rcases e : s.recording with _ | r
        · simp [stopRecording, e] at hstop
        · simp [stopRecording, e] at hstop
          subst hstop
          exact Nat.zero_le _
    | pressResume t hdv hrec hpau htog =>
        rcases e : s.recording with _ | r
        · simp [togglePause, e] at htog
        · simp [togglePause, e] at htog
          subst htog
          exact Nat.le_refl _
    | pressSave now hd =>
        unfold handleSaveRecording
        split <;> exact Nat.le_refl _
    | pressCancel hd => exact Nat.le_refl _
    | typeNameStep t hd => exact Nat.le_refl _
    | pressPlay t i hdv hplay =>
        by_cases hi : i < s.recordings.length
        · simp [playClip, hi] at hplay
          subst hplay
          exact Nat.le_refl _
        · simp [playClip, hi] at hplay
    | pressTrash i hd hlen => exact Nat.le_refl _
    | statusUpdate h b =>
        unfold handleStatusUpdate
        split <;> exact Nat.le_refl _

/-- Claim C8 witness: one tick of a concrete Recording state takes timer
from 0 to 1, and one tick of the (Idle) initial state does not increase
timer. -/
theorem c8_witness :
    (tick { initState with recording := some 0, isRecording := true }).timer = 1 ∧
    (tick initState).timer ≤ 0 :=
  ⟨(c8_timer_only_recording { initState with recording := some 0, isRecording := true }
      (tick { initState with recording := some 0, isRecording := true })
      (Step.timerTick _)).1 (by decide),
   (c8_timer_only_recording initState (tick initState) (Step.timerTick _)).2 (by decide)⟩

/-- Claim C9 counterexample: Cancel does not drop the pending finalized
capture handle: from a concrete pending-save state holding handle 7, the
Cancel handler only hides the dialog and the recording field still holds
the handle. -/
theorem c9_counterexample :
    (cancelDialog pendingCancelState).dialogVisible = false ∧
    (cancelDialog pendingCancelState).recording = some 7 ∧
    (cancelDialog pendingCancelState).recording ≠ none ∧
    (cancelDialog pendingCancelState).recordings = pendingCancelState.recordings := by
  decide

/-- Claim C9 amended: Cancel in the pending-save state appends nothing to
the clips list, but it does not drop the pending finalized capture handle
and it releases nothing: it only closes the dialog, leaving the recording
field, the clips and the live playback handles untouched. -/
theorem c9_cancel_keeps_handle (s : State) (hd : s.dialogVisible = true)
    (hr : s.recording ≠ none) :
    (cancelDialog s).recordings = s.recordings ∧
    (cancelDialog s).recording = s.recording ∧
    (cancelDialog s).recording ≠ none ∧
    (cancelDialog s).dialogVisible = false ∧
    (cancelDialog s).liveSounds = s.liveSounds :=
  ⟨rfl, rfl, hr, rfl, rfl⟩

/-- Claim C9 witness: Cancel on a concrete pending-save state holding handle
7 keeps the clips list and the pending handle and only closes the dialog. -/
theorem c9_witness :
    (cancelDialog pendingCancelState).recordings = pendingCancelState.recordings ∧
    (cancelDialog pendingCancelState).recording = pendingCancelState.recording ∧
    (cancelDialog pendingCancelState).recording ≠ none ∧
    (cancelDialog pendingCancelState).dialogVisible = false ∧
    (cancelDialog pendingCancelState).liveSounds = pendingCancelState.liveSounds :=
  c9_cancel_keeps_handle pendingCancelState rfl (by decide)

/-- Claim C10: deleting a clip below the currently playing one never adjusts
the playing index: after deleteClip i with i below the playing index p, the
playing index is still p and the tracked sound is unchanged, while position
p of the list now holds the clip formerly at position p plus 1, so the
playing indicator points at the wrong list entry. -/
theorem c10_delete_keeps_playing_index (s : State) (i p : Nat)
    (hip : i < p) (hp : p < s.recordings.length) (hplay : s.playing = (p : Int)) :
    (deleteClip i s).playing = (p : Int) ∧
    (deleteClip i s).sound = s.sound ∧
    (deleteClip i s).recordings[p]? = s.recordings[p + 1]? := by
  refine ⟨?_, rfl, ?_⟩
  · rw [show (deleteClip i s).playing = s.playing from rfl, hplay]
  · exact getElem?_eraseIdx_ge s.recordings i p (Nat.le_of_lt hip)

/-- Claim C10 witness: deleting clip 0 of a concrete three-clip state while
clip 1 is playing keeps the playing index at 1, keeps the tracked sound,
and puts the former clip 2 at position 1. -/
theorem c10_witness :
    (deleteClip 0 threeClipsState).playing = 1 ∧
    (deleteClip 0 threeClipsState).sound = some { id := 0, clip := 1 } ∧
    (deleteClip 0 threeClipsState).recordings[1]? = some clipC :=
  c10_delete_keeps_playing_index threeClipsState 0 1 (by decide) (by decide) rfl

end RecorderApp
